import Mathlib

/-!
Verification of the room-resolution and fan-out relay server
(`src/src/server.ts` and the near-duplicate variant `src/unnamed/part_000`).

Shallow embedding conventions:
* A backend room id has TypeScript type `number | string`; it is embedded as
  `RoomVal` with JS truthiness made explicit (`0` and `""` are falsy).
* `undefined`/absent optional payload fields are `Option.none`;
  JS `null` for `sender_id` is also embedded as `none` (the two are
  indistinguishable in every construct the relay builds from them).
* The module-level `roomKeyToId : Map<string, number|string>` is embedded as
  an association list where `regSet` prepends and `regGet` takes the first
  match, matching JS `Map.set` last-write-wins semantics.
* Each socket handler is embedded as a pure function from the registry and
  the inbound payload (plus externalised nondeterminism: the freshly
  generated room key, the backend call result, the server clock) to a result
  record.  Result fields separate the distinct emission channels of the
  source: `socket.emit` (requester only), `io.to(room).emit` (every member
  of the room group, sender included), `socket.to(room).emit` (every member
  except the sender), `io.emit` (all connected clients), `socket.join`,
  and the fire-and-forget persistence calls.
-/

namespace Relay

/-- A backend room identifier: TS `number | string`. -/
inductive RoomVal where
  | num (n : Int)
  | str (s : String)
deriving DecidableEq, Repr

/-- JS truthiness of a `number | string` value: `0` and `""` are falsy. -/
def RoomVal.truthy : RoomVal → Bool
  | .num n => n != 0
  | .str s => s != ""

/-- JS `String(v)`: room-group names are the string rendering of the id. -/
def RoomVal.toStr : RoomVal → String
  | .num n => toString n
  | .str s => s

/-- The module-level `roomKeyToId` map, embedded as an association list. -/
abbrev Registry := List (String × RoomVal)

/-- JS `Map.get`: first (most recently set) binding for `k`, if any. -/
def regGet (reg : Registry) (k : String) : Option RoomVal :=
  match reg.find? (fun p => p.1 == k) with
  | some p => some p.2
  | none => none

/-- JS `Map.set`: prepending so that `regGet` sees the latest binding. -/
def regSet (reg : Registry) (k : String) (v : RoomVal) : Registry :=
  (k, v) :: reg

/-- Embeds `resolveRoomId` (identical in `server.ts` lines 197-199 and
`part_000` lines 129-131):
`room_id || (room_key ? roomKeyToId.get(room_key) : undefined)`.
The `||` falls through on a falsy `room_id`; the conditional on `room_key`
skips the map lookup when `room_key` is absent or the empty string. -/
def resolveRoomId (reg : Registry) (room_id : Option RoomVal)
    (room_key : Option String) : Option RoomVal :=
  let keyLookup : Option RoomVal :=
    match room_key with
    | some k => if k != "" then regGet reg k else none
    | none => none
  match room_id with
  | some v => if v.truthy then some v else keyLookup
  | none => keyLookup

/-- Message sender role: TS `"user" | "agent"`. -/
inductive Sender where
  | user
  | agent
deriving DecidableEq, Repr

/-- `server.ts` `Message`: `{ sender, sender_id, content }`
(`sender_id: string | null` is `Option String`). -/
structure Message where
  sender : Sender
  sender_id : Option String
  content : String
deriving DecidableEq, Repr

/-- `part_000` `Message`: `{ sender, content }`. -/
structure MessageP where
  sender : Sender
  content : String
deriving DecidableEq, Repr

/-- `server.ts` `ApiRoom`: the backend response to `POST /rooms`. -/
structure ApiRoom where
  id : RoomVal
  room_key : String
  created_at : String
deriving DecidableEq, Repr

/-- `part_000` `ApiRoom`: the backend response (`resp.data.room`). -/
structure ApiRoomP where
  id : RoomVal
  session_key : String
  agent_name : String
  user_name : String
  status : String
  created_at : String
deriving DecidableEq, Repr

/-- `server.ts` `CreateOrSendPayload`. -/
structure CreateOrSendPayload where
  user_name : String
  content : String
  sender : Sender
  sender_id : Option String
deriving DecidableEq, Repr

/-- `part_000` `CreateOrSendPayload & { user_id?: string }`. -/
structure CreateOrSendPayloadP where
  room_key : Option String
  name : String
  email : Option String
  content : String
  sender : Sender
  user_id : Option String
deriving DecidableEq, Repr

/-- `server.ts` `SendMessagePayload` (optional `sender`/`sender_id` get
destructuring defaults `"user"`/`null` in the handler). -/
structure SendMessagePayload where
  room_id : Option RoomVal
  room_key : Option String
  content : String
  sender : Option Sender
  sender_id : Option String
deriving DecidableEq, Repr

/-- `JoinRoomPayload` (same shape in both variants). -/
structure JoinRoomPayload where
  room_id : Option RoomVal
  room_key : Option String
deriving DecidableEq, Repr

/-- `TypingPayload` (same shape in both variants). -/
structure TypingPayload where
  room_id : Option RoomVal
  room_key : Option String
  user_id : String
  user_name : String
deriving DecidableEq, Repr

/-- `StopTypingPayload` (same shape in both variants). -/
structure StopTypingPayload where
  room_id : Option RoomVal
  room_key : Option String
  user_id : String
deriving DecidableEq, Repr

/-- The `room_created` payload emitted by `server.ts` (lines 222-226). -/
structure RoomCreatedPayload where
  room_id : RoomVal
  room_key : String
  created_at : String
deriving DecidableEq, Repr

/-- The `room_created` payload emitted by `part_000` (lines 163-171). -/
structure RoomCreatedPayloadP where
  room_id : RoomVal
  room_key : String
  user_name : String
  agent_name : String
  session_key : String
  status : String
  created_at : String
deriving DecidableEq, Repr

/-- Result of the `server.ts` `create_or_send` handler.
`roomCreatedEmits`/`errorEmits` model `socket.emit` (requester only);
`joins` models `socket.join`; `roomBroadcasts` models `io.to(room).emit`
(every group member, sender included); `persists` models the fire-and-forget
`saveMessageAsync` calls issued without `await`. -/
structure CreateOrSendResult where
  registry : Registry
  joins : List String
  roomCreatedEmits : List RoomCreatedPayload
  errorEmits : List String
  roomBroadcasts : List (String × Message)
  persists : List (RoomVal × Message)
deriving DecidableEq, Repr

/-- Result of the `part_000` `create_or_send` handler; channels as in
`CreateOrSendResult`. -/
structure CreateOrSendResultP where
  registry : Registry
  joins : List String
  roomCreatedEmits : List RoomCreatedPayloadP
  errorEmits : List String
  roomBroadcasts : List (String × MessageP)
  persists : List (RoomVal × MessageP)
deriving DecidableEq, Repr

/-- Embeds the `server.ts` `create_or_send` handler (lines 205-238).
The freshly generated `room_key` and the awaited backend call result are
parameters (externalised nondeterminism); `Except.error` models a rejected
`createRoomOnApi` promise, caught by the handler's `try`/`catch`. -/
def create_or_send (reg : Registry) (p : CreateOrSendPayload)
    (room_key : String) (backend : Except Unit ApiRoom) : CreateOrSendResult :=
  match backend with
  | .ok apiRoom =>
    let roomId := apiRoom.id
    let msg : Message :=
      { sender := p.sender, sender_id := p.sender_id, content := p.content }
    { registry := regSet reg room_key roomId
      joins := [roomId.toStr]
      roomCreatedEmits :=
        [{ room_id := roomId, room_key := room_key,
           created_at := apiRoom.created_at }]
      errorEmits := []
      roomBroadcasts := [(roomId.toStr, msg)]
      persists := [(roomId, msg)] }
  | .error _ =>
    { registry := reg
      joins := []
      roomCreatedEmits := []
      errorEmits := ["No se pudo crear la sala"]
      roomBroadcasts := []
      persists := [] }

/-- Embeds the `part_000` `create_or_send` handler (lines 136-179).
The `createPayload` branching on `user_id` (lines 140-154) only shapes the
outbound HTTP request body, which is external I/O folded into the `backend`
parameter.  On success the handler registers the key, joins the socket and
emits `room_created`; it constructs no message, broadcasts nothing and
issues no persistence call. -/
def create_or_sendP (reg : Registry) (p : CreateOrSendPayloadP)
    (room_key : String) (backend : Except Unit ApiRoomP) : CreateOrSendResultP :=
  match backend with
  | .ok apiRoom =>
    let roomId := apiRoom.id
    { registry := regSet reg room_key roomId
      joins := [roomId.toStr]
      roomCreatedEmits :=
        [{ room_id := roomId, room_key := room_key,
           user_name := apiRoom.user_name, agent_name := apiRoom.agent_name,
           session_key := apiRoom.session_key, status := apiRoom.status,
           created_at := apiRoom.created_at }]
      errorEmits := []
      roomBroadcasts := []
      persists := [] }
  | .error _ =>
    { registry := reg
      joins := []
      roomCreatedEmits := []
      errorEmits := ["No se pudo crear la sala"]
      roomBroadcasts := []
      persists := [] }

/-- Result of the `send_message` handler; channels as in
`CreateOrSendResult`. -/
structure SendMessageResult where
  registry : Registry
  errorEmits : List String
  roomBroadcasts : List (String × Message)
  persists : List (RoomVal × Message)
deriving DecidableEq, Repr

/-- Embeds the `server.ts` `send_message` handler (lines 241-260).
The guard `if (!resolvedRoomId)` is JS truthiness: both an `undefined`
result and a falsy resolved value take the error branch. -/
def send_message (reg : Registry) (p : SendMessagePayload) : SendMessageResult :=
  let errRes : SendMessageResult :=
    { registry := reg
      errorEmits := ["room_id o room_key requerido"]
      roomBroadcasts := []
      persists := [] }
  match resolveRoomId reg p.room_id p.room_key with
  | some r =>
    if r.truthy then
      let msg : Message :=
        { sender := p.sender.getD Sender.user, sender_id := p.sender_id,
          content := p.content }
      { registry := reg
        errorEmits := []
        roomBroadcasts := [(r.toStr, msg)]
        persists := [(r, msg)] }
    else errRes
  | none => errRes

/-- Result of the `join_room` handler.  `joinedEmits` models the
`joined_room` payloads sent to the requester only. -/
structure JoinRoomResult where
  registry : Registry
  errorEmits : List String
  joins : List String
  joinedEmits : List RoomVal
deriving DecidableEq, Repr

/-- Embeds the `join_room` handler (`server.ts` lines 285-297; `part_000`
lines 196-209 is identical apart from a log line). -/
def join_room (reg : Registry) (p : JoinRoomPayload) : JoinRoomResult :=
  let errRes : JoinRoomResult :=
    { registry := reg
      errorEmits := ["room_id o room_key requerido para unirse"]
      joins := []
      joinedEmits := [] }
  match resolveRoomId reg p.room_id p.room_key with
  | some r =>
    if r.truthy then
      { registry := reg
        errorEmits := []
        joins := [r.toStr]
        joinedEmits := [r] }
    else errRes
  | none => errRes

/-- `user_typing` payload emitted by `server.ts` (lines 267-270): the spread
`{...payload, room_id: resolvedRoomId}` keeps `room_key` and the user fields
and overrides `room_id` with the resolved id. -/
structure TypingOut where
  room_id : RoomVal
  room_key : Option String
  user_id : String
  user_name : String
deriving DecidableEq, Repr

/-- `user_stop_typing` payload emitted by `server.ts` (lines 277-281):
spread plus a server-stamped `timestamp`. -/
structure StopTypingOut where
  room_id : RoomVal
  room_key : Option String
  user_id : String
  timestamp : String
deriving DecidableEq, Repr

/-- `user_typing` payload emitted by `part_000` (lines 215-219). -/
structure TypingOutP where
  user_id : String
  user_name : String
  room_id : RoomVal
deriving DecidableEq, Repr

/-- `user_stop_typing` payload emitted by `part_000` (lines 226-230). -/
structure StopTypingOutP where
  user_id : String
  room_id : RoomVal
  timestamp : String
deriving DecidableEq, Repr

/-- Result of a typing handler.  `othersBroadcasts` models
`socket.to(room).emit`: delivery to every member of the room group except
the sending socket. -/
structure TypingResult (α : Type) where
  registry : Registry
  othersBroadcasts : List (String × α)
deriving DecidableEq, Repr

/-- Embeds the `server.ts` `user_typing` handler (lines 263-271); a falsy or
absent resolved id returns without emitting anything. -/
def user_typing (reg : Registry) (p : TypingPayload) : TypingResult TypingOut :=
  match resolveRoomId reg p.room_id p.room_key with
  | some r =>
    if r.truthy then
      { registry := reg
        othersBroadcasts :=
          [(r.toStr,
            { room_id := r, room_key := p.room_key,
              user_id := p.user_id, user_name := p.user_name })] }
    else { registry := reg, othersBroadcasts := [] }
  | none => { registry := reg, othersBroadcasts := [] }

/-- Embeds the `server.ts` `user_stop_typing` handler (lines 273-282); the
server clock reading `new Date().toISOString()` is the parameter `ts`. -/
def user_stop_typing (reg : Registry) (p : StopTypingPayload) (ts : String) :
    TypingResult StopTypingOut :=
  match resolveRoomId reg p.room_id p.room_key with
  | some r =>
    if r.truthy then
      { registry := reg
        othersBroadcasts :=
          [(r.toStr,
            { room_id := r, room_key := p.room_key,
              user_id := p.user_id, timestamp := ts })] }
    else { registry := reg, othersBroadcasts := [] }
  | none => { registry := reg, othersBroadcasts := [] }

/-- Embeds the `part_000` `user_typing` handler (lines 211-220). -/
def user_typingP (reg : Registry) (p : TypingPayload) : TypingResult TypingOutP :=
  match resolveRoomId reg p.room_id p.room_key with
  | some r =>
    if r.truthy then
      { registry := reg
        othersBroadcasts :=
          [(r.toStr,
            { user_id := p.user_id, user_name := p.user_name, room_id := r })] }
    else { registry := reg, othersBroadcasts := [] }
  | none => { registry := reg, othersBroadcasts := [] }

/-- Embeds the `part_000` `user_stop_typing` handler (lines 222-231). -/
def user_stop_typingP (reg : Registry) (p : StopTypingPayload) (ts : String) :
    TypingResult StopTypingOutP :=
  match resolveRoomId reg p.room_id p.room_key with
  | some r =>
    if r.truthy then
      { registry := reg
        othersBroadcasts :=
          [(r.toStr,
            { user_id := p.user_id, room_id := r, timestamp := ts })] }
    else { registry := reg, othersBroadcasts := [] }
  | none => { registry := reg, othersBroadcasts := [] }

/-- An action-event payload (`part_000` `ActionPayload`, as destructured by
the handler into `room_id`, `room_key` and the remaining `...eventData`):
the optional room context plus the remaining open key/value fields,
embedded as `rest`. -/
structure ActionPayloadA where
  room_id : Option RoomVal
  room_key : Option String
  rest : List (String × String)
deriving DecidableEq, Repr

/-- Result of the `part_000` generic action handler.  A room broadcast
carries the group name, the event name and the stripped `eventData`; a
global broadcast (`io.emit`) carries the event name and the full payload. -/
structure ActionResultP where
  registry : Registry
  roomBroadcasts : List (String × String × List (String × String))
  globalBroadcasts : List (String × ActionPayloadA)
deriving DecidableEq, Repr

/-- Embeds the `part_000` generic handler installed for each of the five
action events (lines 233-254): strip the room context, resolve it; on a
truthy resolved id broadcast the stripped `eventData` to the room group
only, otherwise broadcast the full payload to all connected clients. -/
def action_handlerP (reg : Registry) (eventName : String) (p : ActionPayloadA) :
    ActionResultP :=
  match resolveRoomId reg p.room_id p.room_key with
  | some r =>
    if r.truthy then
      { registry := reg
        roomBroadcasts := [(r.toStr, eventName, p.rest)]
        globalBroadcasts := [] }
    else
      { registry := reg, roomBroadcasts := [], globalBroadcasts := [(eventName, p)] }
  | none =>
    { registry := reg, roomBroadcasts := [], globalBroadcasts := [(eventName, p)] }

/-- Outcome of one backend-adapter call when the underlying HTTP request
succeeds (`ok = true`) or fails: whether the adapter logged an error and
whether the failure was rethrown to (the promise returned to) its caller. -/
structure AdapterOutcome where
  logged : Bool
  thrown : Bool
deriving DecidableEq, Repr

/-- Embeds `createRoomOnApi` (`server.ts` lines 152-166, `part_000` lines
105-116): `catch` logs and rethrows, so a failure propagates to the awaiting
caller. -/
def createRoomOnApiOutcome (ok : Bool) : AdapterOutcome :=
  { logged := !ok, thrown := !ok }

/-- Embeds `saveMessageAsync` (`server.ts` lines 168-180, `part_000` lines
118-127): the `.catch` handler logs and swallows, so a failure never
propagates. -/
def saveMessageAsyncOutcome (ok : Bool) : AdapterOutcome :=
  { logged := !ok, thrown := !ok && false }

/-- Embeds `createAction` (`server.ts` lines 182-195): `catch` logs and then
rethrows (`throw e`), so a failure is NOT swallowed at the adapter boundary;
it rejects the promise handed back to the caller. -/
def createActionOutcome (ok : Bool) : AdapterOutcome :=
  { logged := !ok, thrown := !ok }

/-- Result of a `server.ts` action-event handler.  `recordActionCalls` are
the backend `/actions` requests issued; `escapedRejections` counts promise
rejections that escape the handler unobserved (the handler neither awaits
nor attaches a rejection continuation). -/
structure ActionResultS where
  registry : Registry
  recordActionCalls : List ActionPayloadA
  escapedRejections : Nat
  roomBroadcasts : List (String × String × List (String × String))
  globalBroadcasts : List (String × ActionPayloadA)
deriving DecidableEq, Repr

/-- Embeds the `server.ts` `checkout_initiated` handler (lines 298-308):
`createAction(payload)` is invoked without `await`, so the surrounding
synchronous `try`/`catch` can never observe its rejection; when the backend
call fails the rejection rethrown by `createActionOutcome` escapes as an
unhandled promise rejection.  The global `io.emit` happens unconditionally,
before the backend call can settle. -/
def checkout_initiatedS (reg : Registry) (p : ActionPayloadA) (backendOk : Bool) :
    ActionResultS :=
  { registry := reg
    recordActionCalls := [p]
    escapedRejections := if (createActionOutcome backendOk).thrown then 1 else 0
    roomBroadcasts := []
    globalBroadcasts := [("checkout_initiated", p)] }

/-- Embeds the `server.ts` handlers for `checkout_completed`,
`user_viewing_product`, `user_left_product` and `order_paid`
(lines 310-324): each re-emits its payload globally via `io.emit`, with no
room resolution, no room-scoped broadcast and no backend call. -/
def otherActionS (reg : Registry) (eventName : String) (p : ActionPayloadA) :
    ActionResultS :=
  { registry := reg
    recordActionCalls := []
    escapedRejections := 0
    roomBroadcasts := []
    globalBroadcasts := [(eventName, p)] }

/-- Modelled from the spec and `part_000` lines 284-287: the repository's
own process policy treats an unhandled promise rejection as fatal
(`process.on("unhandledRejection", ... process.exit(1))`); `server.ts`
registers no such handler, leaving the runtime default, which likewise
terminates the process. -/
def unhandledRejectionFatal (escaped : Nat) : Bool :=
  escaped != 0

/-- One inbound event processed by either variant, with its externalised
nondeterminism (generated key, backend result, clock reading) attached. -/
inductive Op where
  | createOk (p : CreateOrSendPayload) (key : String) (room : ApiRoom)
  | createFail (p : CreateOrSendPayload) (key : String)
  | createOkP (p : CreateOrSendPayloadP) (key : String) (room : ApiRoomP)
  | createFailP (p : CreateOrSendPayloadP) (key : String)
  | sendMsg (p : SendMessagePayload)
  | joinRm (p : JoinRoomPayload)
  | typing (p : TypingPayload)
  | stopTyping (p : StopTypingPayload) (ts : String)
  | typingP (p : TypingPayload)
  | stopTypingP (p : StopTypingPayload) (ts : String)
  | actionP (eventName : String) (p : ActionPayloadA)
  | checkoutS (p : ActionPayloadA) (backendOk : Bool)
  | otherS (eventName : String) (p : ActionPayloadA)
  | heartbeatTick
  | disconnectEv
deriving DecidableEq, Repr

/-- The registry after one event, read off the corresponding handler's
result.  The heartbeat tick (`server.ts` lines 331-333, `part_000` lines
261-264) and the `disconnect` handler (`server.ts` lines 326-328, `part_000`
lines 256-258) only log and `io.emit`; neither touches the registry. -/
def applyOp (reg : Registry) : Op → Registry
  | .createOk p key room => (create_or_send reg p key (.ok room)).registry
  | .createFail p key => (create_or_send reg p key (.error ())).registry
  | .createOkP p key room => (create_or_sendP reg p key (.ok room)).registry
  | .createFailP p key => (create_or_sendP reg p key (.error ())).registry
  | .sendMsg p => (send_message reg p).registry
  | .joinRm p => (join_room reg p).registry
  | .typing p => (user_typing reg p).registry
  | .stopTyping p ts => (user_stop_typing reg p ts).registry
  | .typingP p => (user_typingP reg p).registry
  | .stopTypingP p ts => (user_stop_typingP reg p ts).registry
  | .actionP eventName p => (action_handlerP reg eventName p).registry
  | .checkoutS p ok => (checkout_initiatedS reg p ok).registry
  | .otherS eventName p => (otherActionS reg eventName p).registry
  | .heartbeatTick => reg
  | .disconnectEv => reg

/-- The registry after a sequence of events. -/
def applyOps (reg : Registry) : List Op → Registry
  | [] => reg
  | op :: ops => applyOps (applyOp reg op) ops

/-- Whether an event is a successful room creation that inserts the key
`K`.  Only the success branch of `create_or_send` in either variant writes
to the registry, and it writes the freshly generated key. -/
def Op.createsKey : Op → String → Bool
  | .createOk _ k _, K => k == K
  | .createOkP _ k _, K => k == K
  | _, _ => false

/-! ### Supporting lemmas -/

theorem regGet_regSet (reg : Registry) (k K : String) (v : RoomVal) :
    regGet (regSet reg k v) K = if k == K then some v else regGet reg K := by
  unfold regGet regSet
  cases h : k == K <;> simp [List.find?, h]

theorem send_message_registry (reg : Registry) (p : SendMessagePayload) :
    (send_message reg p).registry = reg := by
  unfold send_message
  cases h : resolveRoomId reg p.room_id p.room_key with
  | none => rfl
  | some r =>
    by_cases ht : r.truthy = true
    · simp [ht]
    · simp [ht]

theorem join_room_registry (reg : Registry) (p : JoinRoomPayload) :
    (join_room reg p).registry = reg := by
  unfold join_room
  cases h : resolveRoomId reg p.room_id p.room_key with
  | none => rfl
  | some r =>
    by_cases ht : r.truthy = true
    · simp [ht]
    · simp [ht]

theorem user_typing_registry (reg : Registry) (p : TypingPayload) :
    (user_typing reg p).registry = reg := by
  unfold user_typing
  cases h : resolveRoomId reg p.room_id p.room_key with
  | none => rfl
  | some r =>
    by_cases ht : r.truthy = true
    · simp [ht]
    · simp [ht]

theorem user_stop_typing_registry (reg : Registry) (p : StopTypingPayload)
    (ts : String) : (user_stop_typing reg p ts).registry = reg := by
  unfold user_stop_typing
  cases h : resolveRoomId reg p.room_id p.room_key with
  | none => rfl
  | some r =>
    by_cases ht : r.truthy = true
    · simp [ht]
    · simp [ht]

theorem user_typingP_registry (reg : Registry) (p : TypingPayload) :
    (user_typingP reg p).registry = reg := by
  unfold user_typingP
  cases h : resolveRoomId reg p.room_id p.room_key with
  | none => rfl
  | some r =>
    by_cases ht : r.truthy = true
    · simp [ht]
    · simp [ht]

theorem user_stop_typingP_registry (reg : Registry) (p : StopTypingPayload)
    (ts : String) : (user_stop_typingP reg p ts).registry = reg := by
  unfold user_stop_typingP
  cases h : resolveRoomId reg p.room_id p.room_key with
  | none => rfl
  | some r =>
    by_cases ht : r.truthy = true
    · simp [ht]
    · simp [ht]

theorem action_handlerP_registry (reg : Registry) (eventName : String)
    (p : ActionPayloadA) : (action_handlerP reg eventName p).registry = reg := by
  unfold action_handlerP
  cases h : resolveRoomId reg p.room_id p.room_key with
  | none => rfl
  | some r =>
    by_cases ht : r.truthy = true
    · simp [ht]
    · simp [ht]

theorem applyOp_get_of_not_creates (reg : Registry) (op : Op) (K : String)
    (h : Op.createsKey op K = false) :
    regGet (applyOp reg op) K = regGet reg K := by
  cases op with
  | createOk p key room =>
    have hk : (key == K) = false := h
    show regGet (regSet reg key room.id) K = regGet reg K
    rw [regGet_regSet]
    simp [hk]
  | createOkP p key room =>
    have hk : (key == K) = false := h
    show regGet (regSet reg key room.id) K = regGet reg K
    rw [regGet_regSet]
    simp [hk]
  | createFail p key => rfl
  | createFailP p key => rfl
  | sendMsg p =>
    show regGet (send_message reg p).registry K = regGet reg K
    rw [send_message_registry]
  | joinRm p =>
    show regGet (join_room reg p).registry K = regGet reg K
    rw [join_room_registry]
  | typing p =>
    show regGet (user_typing reg p).registry K = regGet reg K
    rw [user_typing_registry]
  | stopTyping p ts =>
    show regGet (user_stop_typing reg p ts).registry K = regGet reg K
    rw [user_stop_typing_registry]
  | typingP p =>
    show regGet (user_typingP reg p).registry K = regGet reg K
    rw [user_typingP_registry]
  | stopTypingP p ts =>
    show regGet (user_stop_typingP reg p ts).registry K = regGet reg K
    rw [user_stop_typingP_registry]
  | actionP eventName p =>
    show regGet (action_handlerP reg eventName p).registry K = regGet reg K
    rw [action_handlerP_registry]
  | checkoutS p ok => rfl
  | otherS eventName p => rfl
  | heartbeatTick => rfl
  | disconnectEv => rfl

theorem applyOps_get_of_not_creates (ops : List Op) (reg : Registry) (K : String)
    (h : ∀ op ∈ ops, Op.createsKey op K = false) :
    regGet (applyOps reg ops) K = regGet reg K := by
  induction ops generalizing reg with
  | nil => rfl
  | cons op ops ih =>
    show regGet (applyOps (applyOp reg op) ops) K = regGet reg K
    rw [ih (applyOp reg op) (fun o ho => h o (List.mem_cons_of_mem _ ho))]
    exact applyOp_get_of_not_creates reg op K (h op (List.mem_cons_self _ _))

theorem applyOp_preserves_binding (reg : Registry) (op : Op) (k : String)
    (v : RoomVal) (h : regGet reg k = some v) :
    ∃ w, regGet (applyOp reg op) k = some w := by
  by_cases hc : Op.createsKey op k = true
  · cases op with
    | createOk p key room =>
      refine ⟨room.id, ?_⟩
      show regGet (regSet reg key room.id) k = some room.id
      rw [regGet_regSet]
      simp [show (key == k) = true from hc]
    | createOkP p key room =>
      refine ⟨room.id, ?_⟩
      show regGet (regSet reg key room.id) k = some room.id
      rw [regGet_regSet]
      simp [show (key == k) = true from hc]
    | createFail p key => exact absurd hc (by simp [Op.createsKey])
    | createFailP p key => exact absurd hc (by simp [Op.createsKey])
    | sendMsg p => exact absurd hc (by simp [Op.createsKey])
    | joinRm p => exact absurd hc (by simp [Op.createsKey])
    | typing p => exact absurd hc (by simp [Op.createsKey])
    | stopTyping p ts => exact absurd hc (by simp [Op.createsKey])
    | typingP p => exact absurd hc (by simp [Op.createsKey])
    | stopTypingP p ts => exact absurd hc (by simp [Op.createsKey])
    | actionP eventName p => exact absurd hc (by simp [Op.createsKey])
    | checkoutS p ok => exact absurd hc (by simp [Op.createsKey])
    | otherS eventName p => exact absurd hc (by simp [Op.createsKey])
    | heartbeatTick => exact absurd hc (by simp [Op.createsKey])
    | disconnectEv => exact absurd hc (by simp [Op.createsKey])
  · refine ⟨v, ?_⟩
    rw [applyOp_get_of_not_creates reg op k (Bool.not_eq_true _ ▸ hc)]
    exact h

/-! ### Claim theorems -/

/-- Claim C1: `resolveRoomId` satisfies the registry resolution contract —
a truthy `room_id` is returned unchanged regardless of `room_key`'s
validity; otherwise a supplied `room_key` resolves to the registry's mapping
for that key (absent when the key is unknown); and with neither input the
result is absent.  The hypothesis that the registry holds no binding for the
empty key is an invariant of the relay: every inserted key is a generated
`room_<token>` string, never `""`. -/
theorem C1_resolveRoomId_contract (reg : Registry) (rid : Option RoomVal)
    (rk : Option String) (hE : regGet reg "" = none) :
    (∀ v, rid = some v → v.truthy = true → resolveRoomId reg rid rk = some v)
    ∧ ((∀ v, rid = some v → v.truthy = false) →
        ∀ k, rk = some k → resolveRoomId reg rid rk = regGet reg k)
    ∧ (rid = none → rk = none → resolveRoomId reg rid rk = none) := by
  refine ⟨?_, ?_, ?_⟩
  · rintro v rfl hv
    simp [resolveRoomId, hv]
  · rintro hfalsy k rfl
    by_cases hk : k = ""
    · subst hk
      cases rid with
      | none => simp [resolveRoomId, hE]
      | some v => simp [resolveRoomId, hfalsy v rfl, hE]
    · cases rid with
      | none => simp [resolveRoomId, hk]
      | some v => simp [resolveRoomId, hfalsy v rfl, hk]
  · rintro rfl rfl
    rfl

/-- Witness for C1 at a concrete registry and key. -/
theorem C1_witness :
    resolveRoomId [("room_a", RoomVal.num 5)] none (some "room_a") =
      some (RoomVal.num 5) := by
  have h := (C1_resolveRoomId_contract [("room_a", RoomVal.num 5)] none
      (some "room_a") (by decide)).2.1 (fun v hv => by cases hv) "room_a" rfl
  exact h.trans (by decide)

/-- Registry and payload for the C2 counterexample: the payload carries a
`room_id` that resolves (truthily) to room `7`. -/
def c2reg : Registry := [("room_k1", RoomVal.num 7)]

/-- Payload for the C2 counterexample. -/
def c2p : ActionPayloadA :=
  { room_id := some (RoomVal.num 7), room_key := none,
    rest := [("action", "view_product")] }

/-- Claim C2 is false of the `server.ts` variant: with a resolvable, truthy
room context in the payload, its `checkout_completed` handler still
broadcasts the full payload to all connected clients and performs no
room-scoped broadcast (and never strips `room_id`/`room_key`). -/
theorem C2_counterexample :
    resolveRoomId c2reg c2p.room_id c2p.room_key = some (RoomVal.num 7)
    ∧ (otherActionS c2reg "checkout_completed" c2p).roomBroadcasts = []
    ∧ (otherActionS c2reg "checkout_completed" c2p).globalBroadcasts =
        [("checkout_completed", c2p)] := by
  exact ⟨by decide, rfl, rfl⟩

/-- Claim C2 (amended): in the `part_000` variant each of the five action
events strips `room_id`/`room_key`, resolves them, broadcasts the stripped
payload to the resolved room's group only on success and the full payload to
all connected clients otherwise; in the `server.ts` variant all five
handlers broadcast the payload globally unconditionally, with
`checkout_initiated` additionally issuing the record-action call. -/
theorem C2_amended_action_events (reg : Registry) (eventName : String)
    (p : ActionPayloadA) :
    (∀ r, resolveRoomId reg p.room_id p.room_key = some r → r.truthy = true →
      action_handlerP reg eventName p =
        { registry := reg, roomBroadcasts := [(r.toStr, eventName, p.rest)],
          globalBroadcasts := [] })
    ∧ (resolveRoomId reg p.room_id p.room_key = none →
      action_handlerP reg eventName p =
        { registry := reg, roomBroadcasts := [],
          globalBroadcasts := [(eventName, p)] })
    ∧ (∀ ok, checkout_initiatedS reg p ok =
        { registry := reg, recordActionCalls := [p],
          escapedRejections := if ok then 0 else 1,
          roomBroadcasts := [],
          globalBroadcasts := [("checkout_initiated", p)] })
    ∧ otherActionS reg eventName p =
        { registry := reg, recordActionCalls := [], escapedRejections := 0,
          roomBroadcasts := [], globalBroadcasts := [(eventName, p)] } := by
  refine ⟨?_, ?_, ?_, rfl⟩
  · rintro r hr ht
    simp [action_handlerP, hr, ht]
  · intro hr
    simp [action_handlerP, hr]
  · intro ok
    cases ok <;> rfl

/-- Witness for the amended C2 at a concrete registry and payload. -/
theorem C2_amended_witness :
    action_handlerP [("room_a", RoomVal.num 3)] "order_paid"
        { room_id := none, room_key := some "room_a", rest := [] } =
      { registry := [("room_a", RoomVal.num 3)],
        roomBroadcasts := [("3", "order_paid", [])],
        globalBroadcasts := [] } := by
  have h := (C2_amended_action_events [("room_a", RoomVal.num 3)] "order_paid"
      { room_id := none, room_key := some "room_a", rest := [] }).1
      (RoomVal.num 3) (by decide) (by decide)
  exact h.trans (by decide)

/-- Payload for the C3 counterexample. -/
def c3p : CreateOrSendPayloadP :=
  { room_key := none, name := "bob", email := none, content := "hi",
    sender := .user, user_id := none }

/-- Backend room for the C3 counterexample. -/
def c3room : ApiRoomP :=
  { id := .num 42, session_key := "s1", agent_name := "ana",
    user_name := "bob", status := "open", created_at := "T" }

/-- Claim C3 is false of the `part_000` variant: a successful
`create_or_send` emits `room_created`, yet broadcasts no `new_message` and
issues no persistence call for the input message. -/
theorem C3_counterexample :
    (create_or_sendP [] c3p "room_ab" (.ok c3room)).roomCreatedEmits ≠ []
    ∧ (create_or_sendP [] c3p "room_ab" (.ok c3room)).roomBroadcasts = []
    ∧ (create_or_sendP [] c3p "room_ab" (.ok c3room)).persists = [] := by
  exact ⟨by decide, rfl, rfl⟩

/-- Claim C3 (amended): on a successful backend `createRoom`, the
`server.ts` `create_or_send` handler inserts the key→id binding into the
registry, joins the requester to the id's group, emits `room_created` to the
requester only, broadcasts `new_message` carrying the input message to the
whole group (which includes the sender, just joined) and issues the
non-awaited persistence call; the `part_000` variant inserts the binding,
joins and emits `room_created`, but performs no message broadcast and no
persistence call. -/
theorem C3_amended_create_success (reg : Registry) (p : CreateOrSendPayload)
    (key : String) (room : ApiRoom) (pP : CreateOrSendPayloadP)
    (roomP : ApiRoomP) :
    create_or_send reg p key (.ok room) =
      { registry := regSet reg key room.id
        joins := [room.id.toStr]
        roomCreatedEmits := [{ room_id := room.id, room_key := key,
                               created_at := room.created_at }]
        errorEmits := []
        roomBroadcasts := [(room.id.toStr,
          { sender := p.sender, sender_id := p.sender_id,
            content := p.content })]
        persists := [(room.id,
          { sender := p.sender, sender_id := p.sender_id,
            content := p.content })] }
    ∧ regGet (create_or_send reg p key (.ok room)).registry key = some room.id
    ∧ create_or_sendP reg pP key (.ok roomP) =
      { registry := regSet reg key roomP.id
        joins := [roomP.id.toStr]
        roomCreatedEmits := [{ room_id := roomP.id, room_key := key,
                               user_name := roomP.user_name,
                               agent_name := roomP.agent_name,
                               session_key := roomP.session_key,
                               status := roomP.status,
                               created_at := roomP.created_at }]
        errorEmits := []
        roomBroadcasts := []
        persists := [] } := by
  refine ⟨rfl, ?_, rfl⟩
  show regGet (regSet reg key room.id) key = some room.id
  rw [regGet_regSet]
  simp

/-- Claim C4: when the backend `createRoom` call fails, both variants of
`create_or_send` emit exactly one `error_creating_room` event to the
requester only, perform no broadcast, join no group, issue no persistence
call, and leave the registry unchanged. -/
theorem C4_create_failure (reg : Registry) (p : CreateOrSendPayload)
    (key : String) (pP : CreateOrSendPayloadP) (keyP : String) :
    create_or_send reg p key (.error ()) =
      { registry := reg, joins := [], roomCreatedEmits := [],
        errorEmits := ["No se pudo crear la sala"], roomBroadcasts := [],
        persists := [] }
    ∧ create_or_sendP reg pP keyP (.error ()) =
      { registry := reg, joins := [], roomCreatedEmits := [],
        errorEmits := ["No se pudo crear la sala"], roomBroadcasts := [],
        persists := [] } :=
  ⟨rfl, rfl⟩

/-- Claim C5: registry stability — a binding for a key `K` (as created by a
successful `create_or_send`, whose generated keys are nonempty and, by the
uniqueness of the random key generation, never reused) survives every
subsequent operation of either variant unchanged, and `resolve` with only
`K` keeps returning the same id; moreover no operation ever deletes a
registry binding. -/
theorem C5_registry_stability :
    (∀ (reg : Registry) (ops : List Op) (K : String) (v : RoomVal),
      K ≠ "" → regGet reg K = some v →
      (∀ op ∈ ops, Op.createsKey op K = false) →
      regGet (applyOps reg ops) K = some v
        ∧ resolveRoomId (applyOps reg ops) none (some K) = some v)
    ∧ (∀ (reg : Registry) (op : Op) (k : String) (v : RoomVal),
      regGet reg k = some v → ∃ w, regGet (applyOp reg op) k = some w) := by
  constructor
  · intro reg ops K v hK hv hfresh
    have hg : regGet (applyOps reg ops) K = some v := by
      rw [applyOps_get_of_not_creates ops reg K hfresh]
      exact hv
    refine ⟨hg, ?_⟩
    simp [resolveRoomId, hK, hg]
  · intro reg op k v hv
    exact applyOp_preserves_binding reg op k v hv

/-- Registry for the C5 witness. -/
def c5reg : Registry := [("room_x", RoomVal.num 5)]

/-- Subsequent operations for the C5 witness: a join via the key, a message
send, a typing event, and a later successful creation under a different
fresh key. -/
def c5ops : List Op :=
  [Op.joinRm { room_id := none, room_key := some "room_x" },
   Op.sendMsg { room_id := none, room_key := some "room_x", content := "hi",
                sender := none, sender_id := none },
   Op.typing { room_id := none, room_key := some "room_x", user_id := "u1",
               user_name := "Ann" },
   Op.createOk { user_name := "u2", content := "yo", sender := .user,
                 sender_id := none }
     "room_y" { id := .num 9, room_key := "room_y", created_at := "T2" }]

/-- Witness for C5 at a concrete registry and operation sequence. -/
theorem C5_witness :
    regGet (applyOps c5reg c5ops) "room_x" = some (RoomVal.num 5)
    ∧ resolveRoomId (applyOps c5reg c5ops) none (some "room_x") =
        some (RoomVal.num 5) :=
  C5_registry_stability.1 c5reg c5ops "room_x" (RoomVal.num 5)
    (by decide) (by decide) (by decide)

/-- Claim C6: a `send_message` or `join_room` event whose room context fails
to resolve emits exactly one error event to the requesting connection only,
performs zero broadcasts, joins no group and issues no persistence call. -/
theorem C6_unresolved_abort (reg : Registry) (pS : SendMessagePayload)
    (pJ : JoinRoomPayload)
    (hS : resolveRoomId reg pS.room_id pS.room_key = none)
    (hJ : resolveRoomId reg pJ.room_id pJ.room_key = none) :
    send_message reg pS =
      { registry := reg, errorEmits := ["room_id o room_key requerido"],
        roomBroadcasts := [], persists := [] }
    ∧ join_room reg pJ =
      { registry := reg,
        errorEmits := ["room_id o room_key requerido para unirse"],
        joins := [], joinedEmits := [] } := by
  constructor
  · simp [send_message, hS]
  · simp [join_room, hJ]

/-- Witness for C6: an unknown key resolves to nothing and aborts both
operations. -/
theorem C6_witness :
    send_message [] { room_id := none, room_key := some "room_zzz",
                      content := "hi", sender := none, sender_id := none } =
      { registry := [], errorEmits := ["room_id o room_key requerido"],
        roomBroadcasts := [], persists := [] }
    ∧ join_room [] { room_id := none, room_key := some "room_zzz" } =
      { registry := [],
        errorEmits := ["room_id o room_key requerido para unirse"],
        joins := [], joinedEmits := [] } :=
  C6_unresolved_abort []
    { room_id := none, room_key := some "room_zzz", content := "hi",
      sender := none, sender_id := none }
    { room_id := none, room_key := some "room_zzz" }
    (by decide) (by decide)

/-- Claim C7: typing indicators are best-effort — when the room context does
not resolve, both variants of `user_typing`/`user_stop_typing` emit nothing
(no error event); when it resolves, they broadcast to every other connection
in the group (excluding the sender), with `room_id` replaced by the resolved
id and, for `user_stop_typing`, a server-stamped timestamp added. -/
theorem C7_typing_best_effort (reg : Registry) (pT : TypingPayload)
    (pSt : StopTypingPayload) (ts : String) :
    (resolveRoomId reg pT.room_id pT.room_key = none →
      user_typing reg pT = { registry := reg, othersBroadcasts := [] }
      ∧ user_typingP reg pT = { registry := reg, othersBroadcasts := [] })
    ∧ (∀ r, resolveRoomId reg pT.room_id pT.room_key = some r →
        r.truthy = true →
      user_typing reg pT =
        { registry := reg
          othersBroadcasts := [(r.toStr,
            { room_id := r, room_key := pT.room_key, user_id := pT.user_id,
              user_name := pT.user_name })] }
      ∧ user_typingP reg pT =
        { registry := reg
          othersBroadcasts := [(r.toStr,
            { user_id := pT.user_id, user_name := pT.user_name,
              room_id := r })] })
    ∧ (resolveRoomId reg pSt.room_id pSt.room_key = none →
      user_stop_typing reg pSt ts = { registry := reg, othersBroadcasts := [] }
      ∧ user_stop_typingP reg pSt ts =
          { registry := reg, othersBroadcasts := [] })
    ∧ (∀ r, resolveRoomId reg pSt.room_id pSt.room_key = some r →
        r.truthy = true →
      user_stop_typing reg pSt ts =
        { registry := reg
          othersBroadcasts := [(r.toStr,
            { room_id := r, room_key := pSt.room_key, user_id := pSt.user_id,
              timestamp := ts })] }
      ∧ user_stop_typingP reg pSt ts =
        { registry := reg
          othersBroadcasts := [(r.toStr,
            { user_id := pSt.user_id, room_id := r, timestamp := ts })] }) := by
  refine ⟨?_, ?_, ?_, ?_⟩
  · intro h
    constructor
    · simp [user_typing, h]
    · simp [user_typingP, h]
  · rintro r hr ht
    constructor
    · simp [user_typing, hr, ht]
    · simp [user_typingP, hr, ht]
  · intro h
    constructor
    · simp [user_stop_typing, h]
    · simp [user_stop_typingP, h]
  · rintro r hr ht
    constructor
    · simp [user_stop_typing, hr, ht]
    · simp [user_stop_typingP, hr, ht]

/-- Witness for C7 at a concrete registry and typing payload. -/
theorem C7_witness :
    user_typing [("room_b", RoomVal.str "abc")]
        { room_id := none, room_key := some "room_b", user_id := "u1",
          user_name := "Ann" } =
      { registry := [("room_b", RoomVal.str "abc")],
        othersBroadcasts := [("abc",
          { room_id := RoomVal.str "abc", room_key := some "room_b",
            user_id := "u1", user_name := "Ann" })] } := by
  have h := ((C7_typing_best_effort [("room_b", RoomVal.str "abc")]
      { room_id := none, room_key := some "room_b", user_id := "u1",
        user_name := "Ann" }
      { room_id := none, room_key := none, user_id := "u1" } "T").2.1
      (RoomVal.str "abc") (by decide) (by decide)).1
  exact h.trans (by decide)

/-- Claim C8 evaluated at the failing input (a backend call that fails):
`saveMessageAsync` (message persistence) logs and swallows the failure as
the claim states, but `createAction` (action persistence) logs and rethrows
it — the failure is NOT swallowed at the adapter boundary; `createRoomOnApi`
rethrows as the claim requires. -/
theorem C8_adapter_outcomes :
    saveMessageAsyncOutcome false = { logged := true, thrown := false }
    ∧ createActionOutcome false = { logged := true, thrown := true }
    ∧ createRoomOnApiOutcome false = { logged := true, thrown := true }
    ∧ saveMessageAsyncOutcome true = { logged := false, thrown := false }
    ∧ createActionOutcome true = { logged := false, thrown := false } :=
  ⟨rfl, rfl, rfl, rfl, rfl⟩

/-- Payload for the C9 evaluation. -/
def c9p : ActionPayloadA :=
  { room_id := none, room_key := none,
    rest := [("action", "checkout"), ("description", "cart")] }

/-- Claim C9 evaluated at the failing input (the backend `/actions` call
fails during `checkout_initiated`): the global broadcast still always
happens, but the record-action failure is not merely logged — the rejection
rethrown by `createAction` escapes the non-awaiting handler, and an escaped
rejection is fatal under the repository's own unhandled-rejection policy. -/
theorem C9_checkout_failure_escapes :
    (checkout_initiatedS [] c9p false).globalBroadcasts =
      [("checkout_initiated", c9p)]
    ∧ (checkout_initiatedS [] c9p false).recordActionCalls = [c9p]
    ∧ (checkout_initiatedS [] c9p false).escapedRejections = 1
    ∧ unhandledRejectionFatal
        (checkout_initiatedS [] c9p false).escapedRejections = true :=
  ⟨rfl, rfl, rfl, rfl⟩

/-- Claim C10 (implicit): neither `join_room` nor `send_message` checks that
a supplied truthy `room_id` names a room that was ever created — for every
registry (in particular one in which the id never appears), resolution
succeeds with the id itself, the connection is joined to (or the message
broadcast to, and persisted against) the group named by it, and
`joined_room` is emitted with that id. -/
theorem C10_no_existence_check (reg : Registry) (v : RoomVal)
    (rk : Option String) (content : String) (hv : v.truthy = true) :
    join_room reg { room_id := some v, room_key := rk } =
      { registry := reg, errorEmits := [], joins := [v.toStr],
        joinedEmits := [v] }
    ∧ send_message reg
        { room_id := some v, room_key := rk, content := content,
          sender := none, sender_id := none } =
      { registry := reg, errorEmits := [],
        roomBroadcasts := [(v.toStr,
          { sender := Sender.user, sender_id := none, content := content })],
        persists := [(v,
          { sender := Sender.user, sender_id := none, content := content })] } := by
  have hres : resolveRoomId reg (some v) rk = some v := by
    simp [resolveRoomId, hv]
  constructor
  · simp [join_room, hres, hv]
  · simp [send_message, hres, hv]

/-- Witness for C10: room id 999 was never created (empty registry), yet
`join_room` subscribes and confirms. -/
theorem C10_witness :
    join_room [] { room_id := some (RoomVal.num 999), room_key := none } =
      { registry := [], errorEmits := [], joins := ["999"],
        joinedEmits := [RoomVal.num 999] } := by
  have h := (C10_no_existence_check [] (RoomVal.num 999) none "x"
      (by decide)).1
  exact h.trans (by decide)

end Relay
